import Mathlib

/-!
Verification development for the rr entry point (src/main.cc): the trace
dump filter, the argument-parsing flag updates, the prerequisite checks,
and the top-level control flow of main.
-/

/-- Value of a decimal digit character. -/
def digitVal (c : Char) : Nat := c.toNat - 48

/-- Consume a (possibly empty) run of decimal digits, folding them onto the
accumulator, and return the value together with the unread characters. -/
def scanDigits : List Char → Nat → Nat × List Char
  | [], acc => (acc, [])
  | c :: cs, acc =>
    if c.isDigit then scanDigits cs (10 * acc + digitVal c) else (acc, c :: cs)

/-- Model of a single successful `%u` conversion: requires at least one
leading digit, returns the parsed value and the rest of the string. -/
def scanNat : List Char → Option (Nat × List Char)
  | [] => none
  | c :: cs => if c.isDigit then some (scanDigits cs (digitVal c)) else none

/-- Model of C `atoi` on strings consisting of an optional sign followed by
digits (and arbitrary trailing characters): value of the longest digit
prefix after the sign, 0 when there is none.  Overflow is not modelled. -/
def atoi (s : String) : Int :=
  match s.data with
  | '-' :: cs => -(Int.ofNat (scanDigits cs 0).1)
  | '+' :: cs => Int.ofNat (scanDigits cs 0).1
  | cs => Int.ofNat (scanDigits cs 0).1

/-- Model of the successful case of `sscanf(spec, "%u-%u", &start, &end)`:
a digit run, a literal dash, and a second digit run. -/
def scanRange (s : String) : Option (Nat × Nat) :=
  match scanNat s.data with
  | some (a, '-' :: rest) =>
    match scanNat rest with
    | some (b, _) => some (a, b)
    | none => none
  | _ => none

/-- Largest value of a `uint32_t`, the type of the dump filter bounds. -/
def UINT32_MAX : Nat := 4294967295

/-- Spec parsing performed at the top of dump_events_matching (main.cc):
a null spec means all events; a range `A-B` yields `(A, B)`; anything
else falls back to `atoi`, applied to a single event number.  The claims
only exercise nonnegative specs, so the `atoi` fallback is taken at its
natural-number value. -/
def parseSpec : Option String → Nat × Nat
  | none => (0, UINT32_MAX)
  | some s =>
    match scanRange s with
    | some (a, b) => (a, b)
    | none => ((atoi s).toNat, (atoi s).toNat)

/-- Modelled from the spec: the general-purpose register snapshot stored in
a trace frame (struct user_regs lives outside this repository); the
eleven registers named by the dump header in main.cc. -/
structure user_regs where
  eax : Int
  ebx : Int
  ecx : Int
  edx : Int
  esi : Int
  edi : Int
  ebp : Int
  orig_eax : Int
  esp : Int
  eip : Int
  eflags : Int
deriving DecidableEq, Repr

/-- Modelled from the spec: struct trace_frame is declared in trace.h,
which is not in the repository.  Fields follow the TraceFrame data model:
global_time (uint32_t in the code, hence the 2^32 bounds appearing in
theorems), thread_time, tid, reason, the entry/exit flag, the hardware
counters, and the register snapshot. -/
structure trace_frame where
  global_time : Nat
  thread_time : Nat
  tid : Int
  reason : Int
  stateIsEntry : Bool
  hw_interrupts : Nat
  page_faults : Nat
  rbc : Nat
  insts : Nat
  regs : user_regs
deriving DecidableEq, Repr

/-- Shallow embedding of dump_events_matching (main.cc).  The trace stream
is the list of frames not yet read; the result is the pair of the frames
dumped and the frames still unread.  As in the source, the frame that
triggers the early return for `stop < global_time` has already been read
from the stream and is therefore consumed without being dumped.  The
source names the bounds `start` and `end`; `end` is reserved in Lean, so
the upper bound is called `stop` here. -/
def dump_events_matching (start stop : Nat) :
    List trace_frame → List trace_frame × List trace_frame
  | [] => ([], [])
  | f :: rest =>
    if stop < f.global_time then
      ([], rest)
    else
      let r := dump_events_matching start stop rest
      (if start ≤ f.global_time ∧ f.global_time ≤ stop then f :: r.1 else r.1,
       r.2)

/-- The spec loop of start_dumping (main.cc): each spec is matched against
the stream left over from the previous one; outputs are concatenated. -/
def dumpSpecsLoop : List trace_frame → List String → List trace_frame
  | _, [] => []
  | tr, s :: ss =>
    let p := parseSpec (some s)
    let r := dump_events_matching p.1 p.2 tr
    r.1 ++ dumpSpecsLoop r.2 ss

/-- Shallow embedding of start_dumping (main.cc): with no specs, dump all
events (null spec); otherwise run each spec in turn over the same trace
stream.  The result is the sequence of frames dumped. -/
def start_dumping (trace : List trace_frame) (specs : List String) :
    List trace_frame :=
  if specs.isEmpty then
    (dump_events_matching (parseSpec none).1 (parseSpec none).2 trace).1
  else
    dumpSpecsLoop trace specs

/-- The header line printed by start_dumping (main.cc lines 76-79). -/
def dumpHeader : String :=
  "global_time thread_time tid reason entry/exit hw_interrupts page_faults adapted_rbc instructions eax ebx ecx edx esi edi ebp orig_eax esp eip eflags\n"

/-- Strict increase of global_time along a trace, the TraceFrame invariant. -/
def StrictTrace (l : List trace_frame) : Prop :=
  l.Pairwise (fun u v => u.global_time < v.global_time)

instance (l : List trace_frame) : Decidable (StrictTrace l) := by
  unfold StrictTrace
  infer_instance

/-- On a strictly increasing trace, one pass of dump_events_matching outputs
exactly the frames whose global_time lies within the bounds: the early
return can only skip frames that are past the upper bound. -/
theorem dump_events_matching_sorted (a b : Nat) (l : List trace_frame)
    (h : StrictTrace l) :
    (dump_events_matching a b l).1 =
      l.filter (fun f => decide (a ≤ f.global_time) && decide (f.global_time ≤ b)) := by
  induction l with
  | nil => simp [dump_events_matching]
  | cons f rest ih =>
    rw [StrictTrace, List.pairwise_cons] at h
    obtain ⟨hf, hrest⟩ := h
    by_cases hb : b < f.global_time
    · have h1 : (decide (a ≤ f.global_time) && decide (f.global_time ≤ b)) = false := by
        simp only [Bool.and_eq_false_iff, decide_eq_false_iff_not]
        right
        omega
      have h2 : rest.filter
          (fun g => decide (a ≤ g.global_time) && decide (g.global_time ≤ b)) = [] := by
        rw [List.filter_eq_nil_iff]
        intro g hg
        have := hf g hg
        simp only [Bool.and_eq_true, decide_eq_true_eq, not_and]
        intro _
        omega
      simp [dump_events_matching, hb, List.filter_cons, h1, h2]
    · have ih' := ih hrest
      by_cases ha : a ≤ f.global_time
      · have hcond : a ≤ f.global_time ∧ f.global_time ≤ b := ⟨ha, by omega⟩
        have h1 : (decide (a ≤ f.global_time) && decide (f.global_time ≤ b)) = true := by
          simp only [Bool.and_eq_true, decide_eq_true_eq]
          exact ⟨ha, by omega⟩
        simp [dump_events_matching, hb, hcond, List.filter_cons, h1, ih']
      · have hcond : ¬(a ≤ f.global_time ∧ f.global_time ≤ b) := fun hc => ha hc.1
        have h1 : (decide (a ≤ f.global_time) && decide (f.global_time ≤ b)) = false := by
          simp only [Bool.and_eq_false_iff, decide_eq_false_iff_not]
          left
          exact ha
        simp [dump_events_matching, hb, hcond, List.filter_cons, h1, ih']

/-- On a strictly increasing trace containing a frame with global_time n,
that frame is the only one the bounds (n, n) keep. -/
theorem filter_singleton_of_strict (n : Nat) (l : List trace_frame)
    (h : StrictTrace l) (f : trace_frame) (hf : f ∈ l)
    (hgt : f.global_time = n) :
    l.filter (fun g => decide (n ≤ g.global_time) && decide (g.global_time ≤ n)) = [f] := by
  induction l with
  | nil => cases hf
  | cons g rest ih =>
    rw [StrictTrace, List.pairwise_cons] at h
    obtain ⟨hg, hrest⟩ := h
    rcases List.mem_cons.mp hf with rfl | hmem
    · have h1 : (decide (n ≤ f.global_time) && decide (f.global_time ≤ n)) = true := by
        simp only [Bool.and_eq_true, decide_eq_true_eq]
        omega
      have h2 : rest.filter
          (fun u => decide (n ≤ u.global_time) && decide (u.global_time ≤ n)) = [] := by
        rw [List.filter_eq_nil_iff]
        intro u hu
        have := hg u hu
        simp only [Bool.and_eq_true, decide_eq_true_eq, not_and]
        intro _
        omega
      simp [List.filter_cons, h1, h2]
    · have hlt : g.global_time < n := by
        have := hg f hmem
        omega
      have h1 : (decide (n ≤ g.global_time) && decide (g.global_time ≤ n)) = false := by
        simp only [Bool.and_eq_false_iff, decide_eq_false_iff_not]
        left
        omega
      simp [List.filter_cons, h1, ih hrest hmem]

/-- An all-zero register snapshot for concrete test frames. -/
def regsZero : user_regs :=
  { eax := 0, ebx := 0, ecx := 0, edx := 0, esi := 0, edi := 0, ebp := 0,
    orig_eax := 0, esp := 0, eip := 0, eflags := 0 }

/-- A concrete frame at the given global_time, for witnesses. -/
def demoFrame (t : Nat) : trace_frame :=
  { global_time := t, thread_time := t, tid := 1000, reason := 1,
    stateIsEntry := true, hw_interrupts := 0, page_faults := 0, rbc := 0,
    insts := 0, regs := regsZero }

/-- A concrete trace with events at global_time 127 and 5000. -/
def demoTrace : List trace_frame := [demoFrame 127, demoFrame 5000]

/-- C1: on a trace whose frames have strictly increasing global_time values,
dumping with the single-number filter spec "127" outputs exactly the one
frame whose global_time equals 127, and dumping with the range filter spec
"1000-5000" outputs exactly the frames whose global_time lies in the
inclusive interval [1000, 5000]. -/
theorem C1_dump_single_and_range (l : List trace_frame) (h : StrictTrace l) :
    (∀ f ∈ l, f.global_time = 127 → start_dumping l ["127"] = [f])
    ∧ start_dumping l ["1000-5000"] =
        l.filter (fun f => decide (1000 ≤ f.global_time) && decide (f.global_time ≤ 5000)) := by
  have h127 : parseSpec (some "127") = (127, 127) := by decide
  have hrange : parseSpec (some "1000-5000") = (1000, 5000) := by decide
  constructor
  · intro f hf hgt
    show dumpSpecsLoop l ["127"] = [f]
    simp only [dumpSpecsLoop, h127, List.append_nil]
    rw [dump_events_matching_sorted 127 127 l h]
    exact filter_singleton_of_strict 127 l h f hf hgt
  · show dumpSpecsLoop l ["1000-5000"] = _
    simp only [dumpSpecsLoop, hrange, List.append_nil]
    exact dump_events_matching_sorted 1000 5000 l h

/-- C1 witness: the trace [127, 5000] dumped with spec "127" yields exactly
the frame at 127, and with spec "1000-5000" exactly the frames in range. -/
theorem C1_dump_single_and_range_witness :
    start_dumping demoTrace ["127"] = [demoFrame 127]
    ∧ start_dumping demoTrace ["1000-5000"] =
        demoTrace.filter (fun f => decide (1000 ≤ f.global_time) && decide (f.global_time ≤ 5000)) :=
  ⟨(C1_dump_single_and_range demoTrace (by decide)).1 (demoFrame 127)
      (by decide) (by decide),
   (C1_dump_single_and_range demoTrace (by decide)).2⟩

/-- C2: the claim fails on the code.  The trace has frames at global_time 1
and 3; the specs "1-2" and "3-4" describe disjoint, monotonically
increasing event sets; the frame at 3 matches the second spec; yet the
dump outputs only the frame at 1, because the scan for "1-2" reads the
frame at 3 to discover it is past that spec's end and never rewinds, so
the later spec never sees it.  This contradicts the documented contract
of dump_events_matching. -/
theorem C2_matching_frame_omitted :
    StrictTrace [demoFrame 1, demoFrame 3]
    ∧ (parseSpec (some "3-4")).1 ≤ (demoFrame 3).global_time
    ∧ (demoFrame 3).global_time ≤ (parseSpec (some "3-4")).2
    ∧ start_dumping [demoFrame 1, demoFrame 3] ["1-2", "3-4"] = [demoFrame 1] := by
  decide

/-- C3: on a strictly increasing trace of uint32 times, dumping with no
filter and then keeping only the frames with global_time in [a, b] yields
the same frame sequence as dumping with a single spec parsed as the range
(a, b), for valid bounds a ≤ b < 2^32. -/
theorem C3_nofilter_then_intersect (l : List trace_frame) (h : StrictTrace l)
    (hb32 : ∀ f ∈ l, f.global_time < 4294967296)
    (a b : Nat) (hab : a ≤ b) (hblt : b < 4294967296)
    (s : String) (hs : scanRange s = some (a, b)) :
    (start_dumping l []).filter
        (fun f => decide (a ≤ f.global_time) && decide (f.global_time ≤ b))
      = start_dumping l [s] := by
  have hall : start_dumping l [] = l := by
    show (dump_events_matching 0 UINT32_MAX l).1 = l
    rw [dump_events_matching_sorted 0 UINT32_MAX l h, List.filter_eq_self]
    intro f hf
    have := hb32 f hf
    simp only [Bool.and_eq_true, decide_eq_true_eq]
    refine ⟨Nat.zero_le _, ?_⟩
    unfold UINT32_MAX
    omega
  have hspec : parseSpec (some s) = (a, b) := by
    simp [parseSpec, hs]
  rw [hall]
  show _ = dumpSpecsLoop l [s]
  simp only [dumpSpecsLoop, hspec, List.append_nil]
  exact (dump_events_matching_sorted a b l h).symm

/-- C3 witness: on the trace [127, 5000], filtering the unfiltered dump to
[1000, 5000] equals dumping with the spec "1000-5000". -/
theorem C3_nofilter_then_intersect_witness :
    (start_dumping demoTrace []).filter
        (fun f => decide (1000 ≤ f.global_time) && decide (f.global_time ≤ 5000))
      = start_dumping demoTrace ["1000-5000"] :=
  C3_nofilter_then_intersect demoTrace (by decide) (by decide) 1000 5000
    (by decide) (by decide) "1000-5000" (by decide)

/-- Checksum mode held in flags->checksum.  Modelled from the spec: the
sentinel constants CHECKSUM_NONE, CHECKSUM_SYSCALL and CHECKSUM_ALL are
defined in util.h, which is not in the repository; the spec lists the
four modes none / on every syscall exit / on every event / from a given
global_time onward, so the field is modelled as this tagged variant. -/
inductive ChecksumMode
  | none
  | onSyscalls
  | onAllEvents
  | fromTime (t : Int)
deriving DecidableEq, Repr

/-- The three commands dispatched by parse_args (main.cc). -/
inductive RROption
  | RECORD
  | REPLAY
  | DUMP_EVENTS
deriving DecidableEq, Repr

/-- The fields of struct flags (declared in util.h, outside the repository)
that main.cc reads or writes; types follow their uses in main.cc. -/
structure Flags where
  option : RROption
  max_rbc : Int
  max_events : Int
  ignore_sig : Int
  use_syscall_buffer : Bool
  checksum : ChecksumMode
  dump_at : Int
  dump_on : Int
  dbgport : Int
  redirect : Bool
  force_enable_debugger : Bool
  check_cached_mmaps : Bool
  mark_stdio : Bool
  suppress_performance_warnings : Bool
  cpu_unbound : Bool
  verbose : Bool
  wait_secs : Int
  raw_dump : Bool
deriving DecidableEq, Repr

/-- Linux _NSIG for the platforms rr targets. -/
def NSIG : Int := 64

/-- The record options getopt_long recognises in parse_record_args
(main.cc), with the argument string where one is required. -/
inductive RecordOpt
  | force_syscall_buffer
  | num_cpu_ticks (arg : String)
  | num_events (arg : String)
  | ignore_signal (arg : String)
  | no_syscall_buffer
deriving DecidableEq, Repr

/-- Effect of one parsed record option on the flags: the case bodies of the
switch in parse_record_args (main.cc lines 300-315). -/
def applyRecordOpt (f : Flags) : RecordOpt → Flags
  | .force_syscall_buffer => { f with use_syscall_buffer := true }
  | .num_cpu_ticks a => { f with max_rbc := max 1 (atoi a) }
  | .num_events a => { f with max_events := max 1 (atoi a) }
  | .ignore_signal a => { f with ignore_sig := min (NSIG - 1) (max 1 (atoi a)) }
  | .no_syscall_buffer => { f with use_syscall_buffer := false }

/-- Shallow embedding of the getopt loop of parse_record_args (main.cc):
the options are applied to the flags in command-line order. -/
def parse_record_args (f : Flags) (opts : List RecordOpt) : Flags :=
  opts.foldl applyRecordOpt f

/-- The common options getopt_long recognises in parse_common_args
(main.cc), with the argument string where one is required. -/
inductive CommonOpt
  | checksum (arg : String)
  | dump_on (arg : String)
  | force_enable_debugger
  | check_cached_mmaps
  | mark_stdio
  | suppress_performance_warnings
  | dump_at (arg : String)
  | cpu_unbound
  | verbose
  | wait_secs (arg : String)
deriving DecidableEq, Repr

/-- Effect of one parsed common option on the flags: the case bodies of the
switch in parse_common_args (main.cc lines 414-453). -/
def applyCommonOpt (f : Flags) : CommonOpt → Flags
  | .checksum a =>
    if a = "on-syscalls" then { f with checksum := .onSyscalls }
    else if a = "on-all-events" then { f with checksum := .onAllEvents }
    else { f with checksum := .fromTime (atoi a) }
  | .dump_on a => { f with dump_on := atoi a }
  | .force_enable_debugger => { f with force_enable_debugger := true }
  | .check_cached_mmaps => { f with check_cached_mmaps := true }
  | .mark_stdio => { f with mark_stdio := true }
  | .suppress_performance_warnings =>
    { f with suppress_performance_warnings := true }
  | .dump_at a => { f with dump_at := atoi a }
  | .cpu_unbound => { f with cpu_unbound := true }
  | .verbose => { f with verbose := true }
  | .wait_secs a => { f with wait_secs := atoi a }

/-- Shallow embedding of the getopt loop of parse_common_args (main.cc). -/
def parse_common_args (f : Flags) (opts : List CommonOpt) : Flags :=
  opts.foldl applyCommonOpt f

/-- The single dump option recognised by parse_dump_args (main.cc). -/
inductive DumpOpt
  | raw
deriving DecidableEq, Repr

/-- Effect of one parsed dump option: the case body of the switch in
parse_dump_args (main.cc lines 385-386). -/
def applyDumpOpt (f : Flags) : DumpOpt → Flags
  | .raw => { f with raw_dump := true }

/-- Shallow embedding of the getopt loop of parse_dump_args (main.cc). -/
def parse_dump_args (f : Flags) (opts : List DumpOpt) : Flags :=
  opts.foldl applyDumpOpt f

/-- The flag state after the explicit initializations at the top of
parse_args (main.cc lines 467-475).  DEFAULT_MAX_RBC and
DEFAULT_MAX_EVENTS come from config.h, which is not in the repository,
so they are parameters.  DUMP_AT_NONE and DUMP_ON_NONE come from util.h
(not in the repository) and are likewise parameters.  Fields parse_args
does not assign keep the zero-initialized values of the global flags
struct returned by rr_flags_for_init (util.cc, not in the repository):
false for booleans, 0 for integers, RECORD for the option tag. -/
def initFlags (dmr dme dumpAtNone dumpOnNone : Int) : Flags :=
  { option := .RECORD
    max_rbc := dmr
    max_events := dme
    ignore_sig := 0
    use_syscall_buffer := true
    checksum := .none
    dump_at := dumpAtNone
    dump_on := dumpOnNone
    dbgport := -1
    redirect := true
    force_enable_debugger := false
    check_cached_mmaps := false
    mark_stdio := false
    suppress_performance_warnings := false
    cpu_unbound := false
    verbose := false
    wait_secs := 0
    raw_dump := false }

/-- One record option keeps max_rbc at least 1 once it is. -/
theorem applyRecordOpt_rbc_ge (f : Flags) (o : RecordOpt) (h : 1 ≤ f.max_rbc) :
    1 ≤ (applyRecordOpt f o).max_rbc := by
  cases o <;> first
    | exact h
    | exact le_max_left 1 _

/-- The record-option fold keeps max_rbc at least 1 once it is. -/
theorem parse_record_rbc_stays (f : Flags) (opts : List RecordOpt)
    (h : 1 ≤ f.max_rbc) : 1 ≤ (parse_record_args f opts).max_rbc := by
  induction opts generalizing f with
  | nil => exact h
  | cons o os ih => exact ih _ (applyRecordOpt_rbc_ge f o h)

/-- One record option keeps max_events at least 1 once it is. -/
theorem applyRecordOpt_events_ge (f : Flags) (o : RecordOpt)
    (h : 1 ≤ f.max_events) : 1 ≤ (applyRecordOpt f o).max_events := by
  cases o <;> first
    | exact h
    | exact le_max_left 1 _

/-- The record-option fold keeps max_events at least 1 once it is. -/
theorem parse_record_events_stays (f : Flags) (opts : List RecordOpt)
    (h : 1 ≤ f.max_events) : 1 ≤ (parse_record_args f opts).max_events := by
  induction opts generalizing f with
  | nil => exact h
  | cons o os ih => exact ih _ (applyRecordOpt_events_ge f o h)

/-- C4: whenever the record options include -c (--num-cpu-ticks) with some
argument string, the parsed max_rbc is at least 1, and whenever they
include -e (--num-events) with some argument string, the parsed max_events
is at least 1 — whatever the strings parse to, zero and negative values
included, because the case bodies clamp with MAX(1, atoi(optarg)). -/
theorem C4_budget_minimum_one (f : Flags) (opts : List RecordOpt) :
    ((∃ s, RecordOpt.num_cpu_ticks s ∈ opts) →
      1 ≤ (parse_record_args f opts).max_rbc)
    ∧ ((∃ s, RecordOpt.num_events s ∈ opts) →
      1 ≤ (parse_record_args f opts).max_events) := by
  constructor
  · rintro ⟨s, hmem⟩
    induction opts generalizing f with
    | nil => cases hmem
    | cons o os ih =>
      rcases List.mem_cons.mp hmem with rfl | hmem2
      · exact parse_record_rbc_stays _ os (le_max_left 1 _)
      · exact ih _ hmem2
  · rintro ⟨s, hmem⟩
    induction opts generalizing f with
    | nil => cases hmem
    | cons o os ih =>
      rcases List.mem_cons.mp hmem with rfl | hmem2
      · exact parse_record_events_stays _ os (le_max_left 1 _)
      · exact ih _ hmem2

/-- C4 witness: -c 0 and -e -5 both clamp to 1. -/
theorem C4_budget_minimum_one_witness :
    1 ≤ (parse_record_args (initFlags 0 0 0 0)
          [RecordOpt.num_cpu_ticks "0", RecordOpt.num_events "-5"]).max_rbc
    ∧ 1 ≤ (parse_record_args (initFlags 0 0 0 0)
          [RecordOpt.num_cpu_ticks "0", RecordOpt.num_events "-5"]).max_events :=
  ⟨(C4_budget_minimum_one (initFlags 0 0 0 0)
      [RecordOpt.num_cpu_ticks "0", RecordOpt.num_events "-5"]).1
      ⟨"0", by decide⟩,
   (C4_budget_minimum_one (initFlags 0 0 0 0)
      [RecordOpt.num_cpu_ticks "0", RecordOpt.num_events "-5"]).2
      ⟨"-5", by decide⟩⟩

/-- One record option keeps ignore_sig within [1, NSIG - 1] once it is. -/
theorem applyRecordOpt_sig_bounds (f : Flags) (o : RecordOpt)
    (h : 1 ≤ f.ignore_sig ∧ f.ignore_sig ≤ NSIG - 1) :
    1 ≤ (applyRecordOpt f o).ignore_sig
    ∧ (applyRecordOpt f o).ignore_sig ≤ NSIG - 1 := by
  cases o <;> first
    | exact h
    | exact ⟨le_min (by norm_num [NSIG]) (le_max_left 1 _), min_le_left _ _⟩

/-- The record-option fold keeps ignore_sig within [1, NSIG - 1] once it
is. -/
theorem parse_record_sig_stays (f : Flags) (opts : List RecordOpt)
    (h : 1 ≤ f.ignore_sig ∧ f.ignore_sig ≤ NSIG - 1) :
    1 ≤ (parse_record_args f opts).ignore_sig
    ∧ (parse_record_args f opts).ignore_sig ≤ NSIG - 1 := by
  induction opts generalizing f with
  | nil => exact h
  | cons o os ih => exact ih _ (applyRecordOpt_sig_bounds f o h)

/-- C9: whenever the record options include -i (--ignore-signal) with some
argument string, the parsed ignore_sig is clamped into [1, _NSIG - 1],
whatever the string parses to: the case body is
MIN(_NSIG - 1, MAX(1, atoi(optarg))). -/
theorem C9_ignore_sig_clamped (f : Flags) (opts : List RecordOpt) (s : String)
    (hmem : RecordOpt.ignore_signal s ∈ opts) :
    1 ≤ (parse_record_args f opts).ignore_sig
    ∧ (parse_record_args f opts).ignore_sig ≤ NSIG - 1 := by
  induction opts generalizing f with
  | nil => cases hmem
  | cons o os ih =>
    rcases List.mem_cons.mp hmem with rfl | hmem2
    · exact parse_record_sig_stays _ os
        ⟨le_min (by norm_num [NSIG]) (le_max_left 1 _), min_le_left _ _⟩
    · exact ih _ hmem2

/-- C9 witness: -i 0 clamps to 1 and -i 9999 clamps to NSIG - 1, both in
range. -/
theorem C9_ignore_sig_clamped_witness :
    (1 ≤ (parse_record_args (initFlags 0 0 0 0)
          [RecordOpt.ignore_signal "0"]).ignore_sig
      ∧ (parse_record_args (initFlags 0 0 0 0)
          [RecordOpt.ignore_signal "0"]).ignore_sig ≤ NSIG - 1)
    ∧ (1 ≤ (parse_record_args (initFlags 0 0 0 0)
          [RecordOpt.ignore_signal "9999"]).ignore_sig
      ∧ (parse_record_args (initFlags 0 0 0 0)
          [RecordOpt.ignore_signal "9999"]).ignore_sig ≤ NSIG - 1) :=
  ⟨C9_ignore_sig_clamped (initFlags 0 0 0 0) [RecordOpt.ignore_signal "0"]
      "0" (by decide),
   C9_ignore_sig_clamped (initFlags 0 0 0 0) [RecordOpt.ignore_signal "9999"]
      "9999" (by decide)⟩

/-- A common option other than -c (--checksum) leaves the checksum mode
unchanged. -/
theorem applyCommonOpt_checksum_other (f : Flags) (o : CommonOpt)
    (h : ∀ a, o ≠ CommonOpt.checksum a) :
    (applyCommonOpt f o).checksum = f.checksum := by
  cases o with
  | checksum a => exact absurd rfl (h a)
  | dump_on a => rfl
  | force_enable_debugger => rfl
  | check_cached_mmaps => rfl
  | mark_stdio => rfl
  | suppress_performance_warnings => rfl
  | dump_at a => rfl
  | cpu_unbound => rfl
  | verbose => rfl
  | wait_secs a => rfl

/-- Folding common options none of which is -c (--checksum) leaves the
checksum mode unchanged. -/
theorem parse_common_checksum_untouched (f : Flags) (opts : List CommonOpt)
    (h : ∀ a, CommonOpt.checksum a ∉ opts) :
    (parse_common_args f opts).checksum = f.checksum := by
  induction opts generalizing f with
  | nil => rfl
  | cons o os ih =>
    have ho : ∀ a, o ≠ CommonOpt.checksum a := by
      intro a ha
      exact h a (ha ▸ List.mem_cons_self o os)
    have hos : ∀ a, CommonOpt.checksum a ∉ os := by
      intro a ha
      exact h a (List.mem_cons_of_mem o ha)
    calc (parse_common_args (applyCommonOpt f o) os).checksum
        = (applyCommonOpt f o).checksum := ih _ hos
      _ = f.checksum := applyCommonOpt_checksum_other f o ho

/-- C6: checksum-mode configuration.  With no -c (--checksum) option the
mode stays at the CHECKSUM_NONE value installed by parse_args; the
argument "on-syscalls" selects checksumming on every syscall exit; the
argument "on-all-events" selects checksumming on every event; and any
other argument is interpreted as the integer global_time from which
checksumming starts, via atoi. -/
theorem C6_checksum_modes (dmr dme dan don : Int) (f : Flags) (s : String)
    (opts : List CommonOpt) (hnone : ∀ a, CommonOpt.checksum a ∉ opts) :
    (parse_common_args (initFlags dmr dme dan don) opts).checksum = ChecksumMode.none
    ∧ (applyCommonOpt f (CommonOpt.checksum "on-syscalls")).checksum = ChecksumMode.onSyscalls
    ∧ (applyCommonOpt f (CommonOpt.checksum "on-all-events")).checksum = ChecksumMode.onAllEvents
    ∧ (s ≠ "on-syscalls" → s ≠ "on-all-events" →
        (applyCommonOpt f (CommonOpt.checksum s)).checksum = ChecksumMode.fromTime (atoi s)) := by
  refine ⟨?_, rfl, rfl, ?_⟩
  · rw [parse_common_checksum_untouched _ _ hnone]
    rfl
  · intro h1 h2
    simp [applyCommonOpt, h1, h2]

/-- C6 witness: a -v option leaves the mode at none; "on-syscalls" and
"on-all-events" select their modes; "1234" selects from-time 1234. -/
theorem C6_checksum_modes_witness :
    (parse_common_args (initFlags 0 0 0 0) [CommonOpt.verbose]).checksum = ChecksumMode.none
    ∧ (applyCommonOpt (initFlags 0 0 0 0) (CommonOpt.checksum "on-syscalls")).checksum = ChecksumMode.onSyscalls
    ∧ (applyCommonOpt (initFlags 0 0 0 0) (CommonOpt.checksum "on-all-events")).checksum = ChecksumMode.onAllEvents
    ∧ (applyCommonOpt (initFlags 0 0 0 0) (CommonOpt.checksum "1234")).checksum = ChecksumMode.fromTime (atoi "1234") :=
  have T := C6_checksum_modes 0 0 0 0 (initFlags 0 0 0 0) "1234"
    [CommonOpt.verbose] (by intro a ha; simp at ha)
  ⟨T.1, T.2.1, T.2.2.1, T.2.2.2 (by decide) (by decide)⟩

/-- Raw vs human-readable encoding of a dumped frame line. -/
inductive DumpEncoding
  | raw
  | humanReadable
deriving DecidableEq, Repr

/-- Modelled from the spec: trace_frame::dump is implemented in trace.cc,
which is not in the repository.  The spec fixes the content and order of
each dumped frame line — global_time, thread_time, tid, reason, the
entry/exit flag, the hardware-interrupt count, the page-fault count, the
adapted retired-conditional-branch count, the instruction count, then
the full register snapshot — and that the line is raw when the raw_dump
flag is set and human-readable otherwise.  Each field is paired with its
header name; the numeric rendering of the entry/exit flag is not fixed
by the spec and is taken as 1 for entry, 0 for exit. -/
def trace_frame.dumpLine (f : trace_frame) (raw_dump : Bool) :
    DumpEncoding × List (String × Int) :=
  (if raw_dump then .raw else .humanReadable,
   [("global_time", Int.ofNat f.global_time),
    ("thread_time", Int.ofNat f.thread_time),
    ("tid", f.tid),
    ("reason", f.reason),
    ("entry/exit", if f.stateIsEntry then 1 else 0),
    ("hw_interrupts", Int.ofNat f.hw_interrupts),
    ("page_faults", Int.ofNat f.page_faults),
    ("adapted_rbc", Int.ofNat f.rbc),
    ("instructions", Int.ofNat f.insts),
    ("eax", f.regs.eax),
    ("ebx", f.regs.ebx),
    ("ecx", f.regs.ecx),
    ("edx", f.regs.edx),
    ("esi", f.regs.esi),
    ("edi", f.regs.edi),
    ("ebp", f.regs.ebp),
    ("orig_eax", f.regs.orig_eax),
    ("esp", f.regs.esp),
    ("eip", f.regs.eip),
    ("eflags", f.regs.eflags)])

/-- Once raw_dump is set, the dump-option fold keeps it set. -/
theorem parse_dump_raw_stays (g : Flags) (opts : List DumpOpt)
    (hg : g.raw_dump = true) : (parse_dump_args g opts).raw_dump = true := by
  induction opts generalizing g with
  | nil => exact hg
  | cons o os ih =>
    cases o
    exact ih _ rfl

/-- Starting from cleared raw_dump, the fold sets it exactly when the -r
option occurs. -/
theorem parse_dump_raw_iff (g : Flags) (opts : List DumpOpt)
    (hg : g.raw_dump = false) :
    ((parse_dump_args g opts).raw_dump = true ↔ DumpOpt.raw ∈ opts) := by
  induction opts generalizing g with
  | nil => simp [parse_dump_args, hg]
  | cons o os ih =>
    cases o
    constructor
    · intro _
      exact List.mem_cons_self _ _
    · intro _
      exact parse_dump_raw_stays _ os rfl

/-- C8: the fields of every dumped frame line, in order, carry exactly the
names of the header printed by start_dumping — global_time, thread_time,
tid, reason, entry/exit, hw_interrupts, page_faults, adapted_rbc,
instructions, then the eleven general-purpose registers — and the line
is in raw form exactly when the raw_dump flag is set, which parsing the
dump options sets exactly when -r (--raw) is given. -/
theorem C8_dump_field_order (f : trace_frame) (b : Bool) (g : Flags)
    (opts : List DumpOpt) (hg : g.raw_dump = false) :
    String.intercalate " " (((trace_frame.dumpLine f b).2.map Prod.fst))
        ++ "\n" = dumpHeader
    ∧ (trace_frame.dumpLine f b).1
        = (if b then DumpEncoding.raw else DumpEncoding.humanReadable)
    ∧ ((parse_dump_args g opts).raw_dump = true ↔ DumpOpt.raw ∈ opts) := by
  refine ⟨rfl, rfl, parse_dump_raw_iff g opts hg⟩

/-- C8 witness: a concrete frame's line carries the header's field names in
order, raw when requested, and -r sets raw_dump. -/
theorem C8_dump_field_order_witness :
    String.intercalate " " (((trace_frame.dumpLine (demoFrame 127) true).2.map Prod.fst))
        ++ "\n" = dumpHeader
    ∧ (trace_frame.dumpLine (demoFrame 127) true).1
        = (if true then DumpEncoding.raw else DumpEncoding.humanReadable)
    ∧ ((parse_dump_args (initFlags 0 0 0 0) [DumpOpt.raw]).raw_dump = true
        ↔ DumpOpt.raw ∈ [DumpOpt.raw]) :=
  C8_dump_field_order (demoFrame 127) true (initFlags 0 0 0 0) [DumpOpt.raw] rfl

/-- The KERNEL_VERSION macro from linux/version.h. -/
def KERNEL_VERSION (a b c : Nat) : Nat := a * 65536 + b * 256 + c

/-- Reasons for which main terminates through FATAL.  Modelled from the
spec: the FATAL macro lives in log.h, which is not in the repository;
the spec's process-level contract says an unmet prerequisite terminates
the process with a distinguished failure status. -/
inductive FatalReason
  | ptraceScope
  | kernelTooOld
  | noSyscallFiltering
  | governorReadFailed
  | nanosleepFailed
  | bindCpuFailed
deriving DecidableEq, Repr

/-- How the modelled main terminates: a normal exit code, or a FATAL
abort. -/
inductive MainResult
  | exitCode (n : Nat)
  | fatal (e : FatalReason)
deriving DecidableEq, Repr

/-- A termination is a failure when it is a FATAL abort or a nonzero exit
code. -/
def MainResult.isFailure : MainResult → Bool
  | .exitCode n => n != 0
  | .fatal _ => true

/-- The externally visible steps of main that the claims talk about. -/
inductive MainAction
  | printUsage
  | pinCpu (n : Nat)
  | startSession
deriving DecidableEq, Repr

/-- Shallow embedding of assert_prerequisites (main.cc lines 124-151).
ptrace_scope is the value read by read_int_file, -1 when the yama file
does not exist; unameOk says whether uname succeeded, in which case
kmajor.kminor is the parsed release.  The result is the FATAL raised,
if any. -/
def assert_prerequisites (ptrace_scope : Int) (unameOk : Bool)
    (kmajor kminor : Nat) (use_syscall_buffer : Bool) : Option FatalReason :=
  if 0 < ptrace_scope then some .ptraceScope
  else if unameOk = true
      ∧ KERNEL_VERSION kmajor kminor 0 < KERNEL_VERSION 3 4 0 then
    some .kernelTooOld
  else if unameOk = true ∧ use_syscall_buffer = true
      ∧ KERNEL_VERSION kmajor kminor 0 < KERNEL_VERSION 3 5 0 then
    some .noSyscallFiltering
  else none

/-- Shallow embedding of check_performance_settings (main.cc lines
153-197).  governorOpenOk says whether the cpu0 scaling_governor file
opened; when it did not, the function only warns and returns.  When it
opened, governorReadOk says whether the read() of the governor name
succeeded; a failed read is FATAL (main.cc lines 168-170).  Everything
else in the function only prints warnings and changes no state. -/
def check_performance_settings (governorOpenOk governorReadOk : Bool) :
    Option FatalReason :=
  if governorOpenOk = false then none
  else if governorReadOk = false then some .governorReadFailed
  else none

/-- The environment and parse outcome that determine main's control flow
(main.cc lines 526-608): whether argv[1] was "check-preload-lib", argc
and the index parse_args returned, the parsed flags, and the outcomes
of the external calls main makes (the ptrace_scope read, uname, the
governor open and read in check_performance_settings, nanosleep,
sched_setaffinity). -/
structure MainEnv where
  checkPreloadLib : Bool
  argc : Int
  argi : Int
  flags : Flags
  ptrace_scope : Int
  unameOk : Bool
  kmajor : Nat
  kminor : Nat
  governorOpenOk : Bool
  governorReadOk : Bool
  nanosleepOk : Bool
  setaffinityOk : Bool
deriving DecidableEq, Repr

/-- The condition under which main prints usage and returns 1 (main.cc
lines 539-546): parse failure, or a missing positional argument for a
command other than replay. -/
def usageCond (env : MainEnv) : Prop :=
  env.argi < 0 ∨ env.argc < env.argi
    ∨ (env.flags.option ≠ RROption.REPLAY ∧ env.argc ≤ env.argi)

instance (env : MainEnv) : Decidable (usageCond env) := by
  unfold usageCond
  infer_instance

/-- The tail of main after the prerequisite and performance checks
(main.cc lines 553-607): the optional startup wait, the CPU pinning,
and the session.  The sessions themselves (record, replay,
start_dumping) are modelled from the spec's process-level contract as
running to completion, after which main returns 0, so reaching start
is the startSession action. -/
def rrMainTail (env : MainEnv) : List MainAction × MainResult :=
  if 0 < env.flags.wait_secs ∧ env.nanosleepOk = false then
    ([], .fatal .nanosleepFailed)
  else if env.flags.cpu_unbound = false then
    if env.setaffinityOk = false then
      ([.pinCpu 0], .fatal .bindCpuFailed)
    else
      ([.pinCpu 0, .startSession], .exitCode 0)
  else ([.startSession], .exitCode 0)

/-- Shallow embedding of main (main.cc lines 526-608), returning the list
of externally visible actions taken, in order, and the termination
result.  After the preload check, the usage check and
assert_prerequisites, main runs check_performance_settings unless
suppress_performance_warnings is set (main.cc lines 549-551), and only
then continues with the wait, the pinning and the session; the
check-preload-lib exit code EX_CONFIG is 78 (sysexits.h). -/
def rrMain (env : MainEnv) : List MainAction × MainResult :=
  if env.checkPreloadLib then ([], .exitCode 78)
  else if usageCond env then ([.printUsage], .exitCode 1)
  else
    match assert_prerequisites env.ptrace_scope env.unameOk env.kmajor
        env.kminor env.flags.use_syscall_buffer with
    | some e => ([], .fatal e)
    | none =>
      if env.flags.suppress_performance_warnings = false then
        match check_performance_settings env.governorOpenOk
            env.governorReadOk with
        | some e => ([], .fatal e)
        | none => rrMainTail env
      else rrMainTail env

/-- When the prerequisite checks raise a FATAL, main stops there. -/
theorem rrMain_of_prereq_some (env : MainEnv)
    (hpl : env.checkPreloadLib = false) (hargs : ¬ usageCond env)
    (e : FatalReason)
    (hp : assert_prerequisites env.ptrace_scope env.unameOk env.kmajor
        env.kminor env.flags.use_syscall_buffer = some e) :
    rrMain env = ([], MainResult.fatal e) := by
  simp [rrMain, hpl, hargs, hp]

/-- When the prerequisite checks raise any FATAL, main terminates in
failure without starting a session. -/
theorem rrMain_failure_of_prereq (env : MainEnv)
    (hpl : env.checkPreloadLib = false) (hargs : ¬ usageCond env)
    (hp : assert_prerequisites env.ptrace_scope env.unameOk env.kmajor
        env.kminor env.flags.use_syscall_buffer ≠ none) :
    (rrMain env).2.isFailure = true
    ∧ MainAction.startSession ∉ (rrMain env).1 := by
  rcases he : assert_prerequisites env.ptrace_scope env.unameOk env.kmajor
      env.kminor env.flags.use_syscall_buffer with _ | e
  · exact absurd he hp
  · rw [rrMain_of_prereq_some env hpl hargs e he]
    simp [MainResult.isFailure]

/-- When the preload, usage, prerequisite and performance checks all
pass, main continues with its tail. -/
theorem rrMain_eq_tail (env : MainEnv) (hpl : env.checkPreloadLib = false)
    (hargs : ¬ usageCond env)
    (hp : assert_prerequisites env.ptrace_scope env.unameOk env.kmajor
        env.kminor env.flags.use_syscall_buffer = none)
    (hpc : env.flags.suppress_performance_warnings = false →
      check_performance_settings env.governorOpenOk env.governorReadOk
        = none) :
    rrMain env = rrMainTail env := by
  by_cases hsp : env.flags.suppress_performance_warnings = false
  · simp [rrMain, hpl, hargs, hp, hsp, hpc hsp]
  · simp [rrMain, hpl, hargs, hp, hsp]

/-- The tail of main never prints usage. -/
theorem rrMainTail_no_usage (env : MainEnv) :
    MainAction.printUsage ∉ (rrMainTail env).1 := by
  unfold rrMainTail
  split
  · simp
  · split
    · split
      · simp
      · simp
    · simp

/-- Once past the preload check, the usage check and the prerequisites,
main never prints usage, whatever the performance check does. -/
theorem rrMain_no_usage (env : MainEnv) (hpl : env.checkPreloadLib = false)
    (hargs : ¬ usageCond env) : MainAction.printUsage ∉ (rrMain env).1 := by
  unfold rrMain
  rw [hpl]
  simp only [Bool.false_eq_true, if_false, if_neg hargs]
  split
  · simp
  · split
    · split
      · simp
      · exact rrMainTail_no_usage env
    · exact rrMainTail_no_usage env

/-- C5: with the preload check off and the arguments accepted, main returns
exit status 0 when the session runs to completion (prerequisites met,
performance check passes, wait and CPU binding succeed); and each unmet
prerequisite — a ptrace_scope value above 0, a kernel release below
3.4.0, or the syscall buffer enabled on a kernel release below 3.5.0 —
terminates the process with a failure status before any session
starts. -/
theorem C5_exit_status (env : MainEnv)
    (hpl : env.checkPreloadLib = false) (hargs : ¬ usageCond env) :
    ((assert_prerequisites env.ptrace_scope env.unameOk env.kmajor env.kminor
          env.flags.use_syscall_buffer = none
        ∧ (env.flags.suppress_performance_warnings = false →
          check_performance_settings env.governorOpenOk env.governorReadOk
            = none)
        ∧ (0 < env.flags.wait_secs → env.nanosleepOk = true)
        ∧ (env.flags.cpu_unbound = false → env.setaffinityOk = true)) →
      (rrMain env).2 = MainResult.exitCode 0)
    ∧ (0 < env.ptrace_scope →
      (rrMain env).2.isFailure = true
        ∧ MainAction.startSession ∉ (rrMain env).1)
    ∧ (env.unameOk = true →
      KERNEL_VERSION env.kmajor env.kminor 0 < KERNEL_VERSION 3 4 0 →
      (rrMain env).2.isFailure = true
        ∧ MainAction.startSession ∉ (rrMain env).1)
    ∧ (env.unameOk = true → env.flags.use_syscall_buffer = true →
      KERNEL_VERSION env.kmajor env.kminor 0 < KERNEL_VERSION 3 5 0 →
      (rrMain env).2.isFailure = true
        ∧ MainAction.startSession ∉ (rrMain env).1) := by
  refine ⟨?_, ?_, ?_, ?_⟩
  · rintro ⟨hp, hpc, hw, hc⟩
    rw [rrMain_eq_tail env hpl hargs hp hpc]
    have hwait : ¬(0 < env.flags.wait_secs ∧ env.nanosleepOk = false) := by
      rintro ⟨h1, h2⟩
      rw [hw h1] at h2
      cases h2
    by_cases hcu : env.flags.cpu_unbound = false
    · have hset := hc hcu
      simp [rrMainTail, hwait, hcu, hset]
    · simp [rrMainTail, hwait, hcu]
  · intro hps
    have hne : assert_prerequisites env.ptrace_scope env.unameOk env.kmajor
        env.kminor env.flags.use_syscall_buffer ≠ none := by
      simp [assert_prerequisites, hps]
    exact rrMain_failure_of_prereq env hpl hargs hne
  · intro hu hv
    have hne : assert_prerequisites env.ptrace_scope env.unameOk env.kmajor
        env.kminor env.flags.use_syscall_buffer ≠ none := by
      unfold assert_prerequisites
      split
      · simp
      · rw [if_pos ⟨hu, hv⟩]
        simp
    exact rrMain_failure_of_prereq env hpl hargs hne
  · intro hu hsb hv
    have hne : assert_prerequisites env.ptrace_scope env.unameOk env.kmajor
        env.kminor env.flags.use_syscall_buffer ≠ none := by
      unfold assert_prerequisites
      split
      · simp
      · split
        · simp
        · rw [if_pos ⟨hu, hsb, hv⟩]
          simp
    exact rrMain_failure_of_prereq env hpl hargs hne

/-- C7: past the preload, usage, prerequisite, performance-check and wait
steps, main with cpu_unbound unset pins to logical CPU 0 and only then
starts the session; a failed pinning call is a FATAL with no session
started; with cpu_unbound set (the -u override), no CPU affinity is
ever set. -/
theorem C7_cpu_pinning (env : MainEnv) (hpl : env.checkPreloadLib = false)
    (hargs : ¬ usageCond env)
    (hp : assert_prerequisites env.ptrace_scope env.unameOk env.kmajor
        env.kminor env.flags.use_syscall_buffer = none)
    (hpc : env.flags.suppress_performance_warnings = false →
      check_performance_settings env.governorOpenOk env.governorReadOk
        = none)
    (hw : 0 < env.flags.wait_secs → env.nanosleepOk = true) :
    (env.flags.cpu_unbound = false → env.setaffinityOk = true →
      (rrMain env).1 = [MainAction.pinCpu 0, MainAction.startSession]
        ∧ (rrMain env).2 = MainResult.exitCode 0)
    ∧ (env.flags.cpu_unbound = false → env.setaffinityOk = false →
      (rrMain env).2 = MainResult.fatal FatalReason.bindCpuFailed
        ∧ MainAction.startSession ∉ (rrMain env).1)
    ∧ (env.flags.cpu_unbound = true →
      ∀ n, MainAction.pinCpu n ∉ (rrMain env).1) := by
  have hwait : ¬(0 < env.flags.wait_secs ∧ env.nanosleepOk = false) := by
    rintro ⟨h1, h2⟩
    rw [hw h1] at h2
    cases h2
  rw [rrMain_eq_tail env hpl hargs hp hpc]
  refine ⟨?_, ?_, ?_⟩
  · intro hcu hset
    constructor <;> simp [rrMainTail, hwait, hcu, hset]
  · intro hcu hset
    constructor <;> simp [rrMainTail, hwait, hcu, hset]
  · intro hcu n
    simp [rrMainTail, hwait, hcu]

/-- C10: when parse_args succeeds and there is no positional argument left
(argc equals the returned index), a replay invocation is accepted —
main never prints usage — while record and dump invocations print the
usage text and exit with status 1, starting no session. -/
theorem C10_replay_optional_positional (env : MainEnv)
    (hpl : env.checkPreloadLib = false) (hargi : 0 ≤ env.argi)
    (hnopos : env.argc = env.argi) :
    (env.flags.option = RROption.REPLAY →
      MainAction.printUsage ∉ (rrMain env).1)
    ∧ (env.flags.option = RROption.RECORD →
      rrMain env = ([MainAction.printUsage], MainResult.exitCode 1))
    ∧ (env.flags.option = RROption.DUMP_EVENTS →
      rrMain env = ([MainAction.printUsage], MainResult.exitCode 1)) := by
  refine ⟨?_, ?_, ?_⟩
  · intro hrep
    have hargs : ¬ usageCond env := by
      rintro (h | h | ⟨hne, _⟩)
      · omega
      · omega
      · exact hne hrep
    exact rrMain_no_usage env hpl hargs
  · intro hrec
    have hargs : usageCond env := by
      refine Or.inr (Or.inr ⟨?_, le_of_eq hnopos⟩)
      rw [hrec]
      intro h
      cases h
    simp [rrMain, hpl, hargs]
  · intro hdump
    have hargs : usageCond env := by
      refine Or.inr (Or.inr ⟨?_, le_of_eq hnopos⟩)
      rw [hdump]
      intro h
      cases h
    simp [rrMain, hpl, hargs]

/-- A flags value for a replay invocation, otherwise at the parse_args
initial state. -/
def replayFlags : Flags := { initFlags 0 0 0 0 with option := RROption.REPLAY }

/-- A concrete environment: a replay invocation with no positional
argument, all prerequisites met, all external calls succeeding. -/
def replayEnv : MainEnv :=
  { checkPreloadLib := false, argc := 2, argi := 2, flags := replayFlags,
    ptrace_scope := 0, unameOk := true, kmajor := 3, kminor := 5,
    governorOpenOk := true, governorReadOk := true,
    nanosleepOk := true, setaffinityOk := true }

/-- The same environment as a record invocation. -/
def recordEnv : MainEnv :=
  { replayEnv with flags := { replayFlags with option := RROption.RECORD } }

/-- The same environment as a dump invocation. -/
def dumpEnv : MainEnv :=
  { replayEnv with flags := { replayFlags with option := RROption.DUMP_EVENTS } }

/-- The replay environment with ptrace_scope set to 1. -/
def badPtraceEnv : MainEnv := { replayEnv with ptrace_scope := 1 }

/-- The replay environment with the -u (--cpu-unbound) override. -/
def unboundEnv : MainEnv :=
  { replayEnv with flags := { replayFlags with cpu_unbound := true } }

/-- The replay environment where sched_setaffinity fails. -/
def pinFailEnv : MainEnv := { replayEnv with setaffinityOk := false }

/-- C5 witness: the healthy replay environment exits 0; with ptrace_scope
1 the run fails before any session starts. -/
theorem C5_exit_status_witness :
    (rrMain replayEnv).2 = MainResult.exitCode 0
    ∧ ((rrMain badPtraceEnv).2.isFailure = true
        ∧ MainAction.startSession ∉ (rrMain badPtraceEnv).1) :=
  ⟨(C5_exit_status replayEnv rfl (by decide)).1
      ⟨by decide, fun _ => by decide, fun _ => rfl, fun _ => rfl⟩,
   (C5_exit_status badPtraceEnv rfl (by decide)).2.1 (by decide)⟩

/-- C7 witness: the healthy environment pins CPU 0 then starts the session;
a failed pin is fatal with no session; the -u environment never pins. -/
theorem C7_cpu_pinning_witness :
    ((rrMain replayEnv).1 = [MainAction.pinCpu 0, MainAction.startSession]
      ∧ (rrMain replayEnv).2 = MainResult.exitCode 0)
    ∧ ((rrMain pinFailEnv).2 = MainResult.fatal FatalReason.bindCpuFailed
      ∧ MainAction.startSession ∉ (rrMain pinFailEnv).1)
    ∧ MainAction.pinCpu 0 ∉ (rrMain unboundEnv).1 :=
  ⟨(C7_cpu_pinning replayEnv rfl (by decide) (by decide)
      (fun _ => by decide) (fun _ => rfl)).1 rfl rfl,
   (C7_cpu_pinning pinFailEnv rfl (by decide) (by decide)
      (fun _ => by decide) (fun _ => rfl)).2.1 rfl rfl,
   (C7_cpu_pinning unboundEnv rfl (by decide) (by decide)
      (fun _ => by decide) (fun _ => rfl)).2.2 rfl 0⟩

/-- C10 witness: with no positional argument the replay invocation never
prints usage, while record and dump print usage and exit 1. -/
theorem C10_replay_optional_positional_witness :
    MainAction.printUsage ∉ (rrMain replayEnv).1
    ∧ rrMain recordEnv = ([MainAction.printUsage], MainResult.exitCode 1)
    ∧ rrMain dumpEnv = ([MainAction.printUsage], MainResult.exitCode 1) :=
  ⟨(C10_replay_optional_positional replayEnv rfl (by decide) rfl).1 rfl,
   (C10_replay_optional_positional recordEnv rfl (by decide) rfl).2.1 rfl,
   (C10_replay_optional_positional dumpEnv rfl (by decide) rfl).2.2 rfl⟩
